import Mathlib

/-!
Verification of the chart position-resolution engine of `kerykeion/main.py`.

Degrees are embedded as rationals (`ℚ`); Python `math.fmod` is embedded as
`fmod` below (remainder with truncation toward zero, as in C `fmod`).  All
inputs the claims quantify over are exact in this model, and the one boundary
the spec flags as float-sensitive (`14 * (360.0/28.0)`) is exact in IEEE
doubles as well, so the rational model and the floating-point code agree on
every boundary examined here.
-/

namespace Kerykeion

/-- Truncation toward zero on `ℚ`, as used by C and Python `fmod`. -/
def rtrunc (x : ℚ) : ℤ := if 0 ≤ x then ⌊x⌋ else ⌈x⌉

/-- Embedding of Python `math.fmod x y`: remainder with the sign of `x`. -/
def fmod (x y : ℚ) : ℚ := x - y * (rtrunc (x / y) : ℚ)

/-- The mathematical operation the spec writes as `(· ) mod 360`:
the representative of `x` in `[0, 360)`. -/
def circMod (x : ℚ) : ℚ := x - 360 * (⌊x / 360⌋ : ℚ)

/-- Embedding of `point_between` (main.py lines 440-448): decides whether
`p3` lies on the forward arc from `p1` to `p2`. -/
def point_between (p1 p2 p3 : ℚ) : Bool :=
  let p1_p2 := fmod (p2 - p1 + 360) 360
  let p1_p3 := fmod (p3 - p1 + 360) 360
  if (decide (p1_p2 ≤ 180)) != (decide (p1_p3 > p1_p2)) then true else false

lemma rtrunc_eq_floor {x : ℚ} (h : 0 ≤ x) : rtrunc x = ⌊x⌋ := by
  simp [rtrunc, h]

lemma fmod_eq_circMod {x : ℚ} (h : 0 ≤ x) : fmod x 360 = circMod x := by
  have hx : (0 : ℚ) ≤ x / 360 := by positivity
  simp [fmod, circMod, rtrunc_eq_floor hx]

lemma circMod_eq_fract (x : ℚ) : circMod x = 360 * Int.fract (x / 360) := by
  have h360 : (360 : ℚ) ≠ 0 := by norm_num
  rw [circMod, Int.fract]
  field_simp

lemma circMod_nonneg (x : ℚ) : 0 ≤ circMod x := by
  rw [circMod_eq_fract]
  have := Int.fract_nonneg (x / 360)
  linarith

lemma circMod_lt (x : ℚ) : circMod x < 360 := by
  rw [circMod_eq_fract]
  have := Int.fract_lt_one (x / 360)
  linarith

lemma circMod_self_eq {x : ℚ} (h0 : 0 ≤ x) (h1 : x < 360) : circMod x = x := by
  have hf : ⌊x / 360⌋ = 0 := by
    rw [Int.floor_eq_zero_iff]
    constructor
    · positivity
    · rw [div_lt_iff₀ (by norm_num : (0:ℚ) < 360)]
      linarith
  simp [circMod, hf]

lemma circMod_360 : circMod 360 = 0 := by
  have hf : ⌊(360 : ℚ) / 360⌋ = 1 := by norm_num
  simp [circMod, hf]

lemma fmod_360_360 : fmod 360 360 = 0 := by
  norm_num [fmod, rtrunc]

/-- Characterization of `point_between` by forward distances: for arguments
giving nonnegative operands to `fmod`, the test is the asymmetric rule the
spec states. -/
lemma point_between_eq (a b p : ℚ) (hb : 0 ≤ b - a + 360) (hp : 0 ≤ p - a + 360) :
    point_between a b p = true ↔
      (circMod (b - a + 360) ≤ 180 ∧ circMod (p - a + 360) ≤ circMod (b - a + 360)) ∨
      (180 < circMod (b - a + 360) ∧ circMod (b - a + 360) < circMod (p - a + 360)) := by
  unfold point_between
  rw [fmod_eq_circMod hb, fmod_eq_circMod hp]
  rcases le_or_lt (circMod (b - a + 360)) 180 with h1 | h1 <;>
    rcases le_or_lt (circMod (p - a + 360)) (circMod (b - a + 360)) with h2 | h2 <;>
      simp [h1, h2, not_le.2, not_lt.2, le_of_lt, not_le_of_lt, not_lt_of_le]

/-- With the test point equal to the opening boundary `a`, the forward
distance is 0 and the test returns true exactly when the span is at most
180 degrees. -/
lemma point_between_at_start {a b : ℚ} (hb : 0 ≤ b - a + 360) :
    point_between a b a = true ↔ circMod (b - a + 360) ≤ 180 := by
  unfold point_between
  have h1 : a - a + 360 = (360 : ℚ) := by ring
  rw [fmod_eq_circMod hb, h1, fmod_360_360]
  have h3 : ¬ ((0 : ℚ) > circMod (b - a + 360)) := not_lt.2 (circMod_nonneg _)
  by_cases h : circMod (b - a + 360) ≤ 180 <;> simp [h, h3]

/-- With the test point equal to the closing boundary `b`, the forward
distances coincide and the test returns true exactly when the span is at
most 180 degrees: the closing boundary is inclusive in the common case. -/
lemma point_between_at_end {a b : ℚ} (hb : 0 ≤ b - a + 360) :
    point_between a b b = true ↔ circMod (b - a + 360) ≤ 180 := by
  unfold point_between
  rw [fmod_eq_circMod hb]
  by_cases h : circMod (b - a + 360) ≤ 180 <;> simp [h, lt_irrefl]

/-- Embedding of the `for_every_planet` house-assignment chain (main.py
lines 450-487): successively tests the twelve consecutive-cusp intervals
and returns the house label of the first match, or the sentinel string
"error!" when no interval matches.  `cusps` embeds `houses_degree_ut`. -/
def for_every_planet (cusps : List ℚ) (planet_deg : ℚ) : String :=
  if point_between (cusps.getD 0 0) (cusps.getD 1 0) planet_deg then "1st House"
  else if point_between (cusps.getD 1 0) (cusps.getD 2 0) planet_deg then "2nd House"
  else if point_between (cusps.getD 2 0) (cusps.getD 3 0) planet_deg then "3rd House"
  else if point_between (cusps.getD 3 0) (cusps.getD 4 0) planet_deg then "4th House"
  else if point_between (cusps.getD 4 0) (cusps.getD 5 0) planet_deg then "5th House"
  else if point_between (cusps.getD 5 0) (cusps.getD 6 0) planet_deg then "6th House"
  else if point_between (cusps.getD 6 0) (cusps.getD 7 0) planet_deg then "7th House"
  else if point_between (cusps.getD 7 0) (cusps.getD 8 0) planet_deg then "8th House"
  else if point_between (cusps.getD 8 0) (cusps.getD 9 0) planet_deg then "9th House"
  else if point_between (cusps.getD 9 0) (cusps.getD 10 0) planet_deg then "10th House"
  else if point_between (cusps.getD 10 0) (cusps.getD 11 0) planet_deg then "11th House"
  else if point_between (cusps.getD 11 0) (cusps.getD 0 0) planet_deg then "12th House"
  else "error!"

/-- Twelve evenly spaced cusps starting at 0 degrees, the configuration the
spec uses in its HouseAssigner examples. -/
def evenCusps : List ℚ := [0, 30, 60, 90, 120, 150, 180, 210, 240, 270, 300, 330]

/-- C1: for all angles a, b, p on the 360-degree circle, `point_between`
reports p inside the arc from a to b exactly when, for the forward
distances d_ab = (b - a + 360) mod 360 and d_ap = (p - a + 360) mod 360,
either d_ab ≤ 180 and d_ap ≤ d_ab, or d_ab > 180 and d_ap > d_ab; in
particular for a = 0 and b = 200 the point 300 is inside and the point 100
is outside. -/
theorem point_between_forward_distance_rule :
    (∀ a b p : ℚ, 0 ≤ a → a < 360 → 0 ≤ b → b < 360 → 0 ≤ p → p < 360 →
      (point_between a b p = true ↔
        (circMod (b - a + 360) ≤ 180 ∧ circMod (p - a + 360) ≤ circMod (b - a + 360)) ∨
        (180 < circMod (b - a + 360) ∧ circMod (b - a + 360) < circMod (p - a + 360)))) ∧
    point_between 0 200 300 = true ∧ point_between 0 200 100 = false := by
  refine ⟨fun a b p ha0 ha1 hb0 hb1 hp0 hp1 =>
    point_between_eq a b p (by linarith) (by linarith), ?_, ?_⟩
  · norm_num [point_between, fmod, rtrunc]
  · norm_num [point_between, fmod, rtrunc]

/-- C2 counterexample: the closing boundary of a consecutive-cusp interval
is not exclusive: a point at the closing cusp of a span of at most 180
degrees is classified inside, so with evenly spaced cusps a body at exactly
30 degrees is assigned house 1, not house 2; moreover at the opening cusp
of a reflex span the point is classified outside, not inside. -/
theorem boundary_exclusive_cex :
    point_between 0 30 30 = true ∧
    for_every_planet evenCusps 30 = "1st House" ∧
    point_between 0 200 0 = false := by
  refine ⟨?_, ?_, ?_⟩
  · norm_num [point_between, fmod, rtrunc]
  · norm_num [for_every_planet, evenCusps, point_between, fmod, rtrunc, List.getD]
  · norm_num [point_between, fmod, rtrunc]

/-- C2 amended: for cusps a, b in [0, 360), the test point p = a is inside
exactly when the forward span (b - a + 360) mod 360 is at most 180 (so it
is inside in the common non-reflex case, with forward distance 0), and the
closing boundary p = b is likewise inside exactly when the span is at most
180 (the closing boundary is inclusive, not exclusive); consequently, with
the 12 evenly spaced cusps 0, 30, ..., 330, a body at exactly 30 degrees is
assigned house 1 (the first matching interval), while a body at 45 degrees
is assigned house 2. -/
theorem boundary_semantics_amended :
    (∀ a b : ℚ, 0 ≤ a → a < 360 → 0 ≤ b → b < 360 →
      (point_between a b a = true ↔ circMod (b - a + 360) ≤ 180) ∧
      (point_between a b b = true ↔ circMod (b - a + 360) ≤ 180)) ∧
    for_every_planet evenCusps 30 = "1st House" ∧
    for_every_planet evenCusps 45 = "2nd House" := by
  refine ⟨fun a b ha0 ha1 hb0 hb1 =>
    ⟨point_between_at_start (by linarith), point_between_at_end (by linarith)⟩, ?_, ?_⟩
  · norm_num [for_every_planet, evenCusps, point_between, fmod, rtrunc, List.getD]
  · norm_num [for_every_planet, evenCusps, point_between, fmod, rtrunc, List.getD]

/-- The descriptor dictionary `position_calc` builds (main.py lines 222-287).
The Python dict key named by the `label` argument is always "name" at every
call site, so it is embedded as the `name` field. -/
structure ZodiacPos where
  name : String
  quality : String
  element : String
  sign : String
  sign_num : ℕ
  position : ℚ
  abs_pos : ℚ
  emoji : String
deriving DecidableEq

/-- Embedding of `position_calc` (main.py lines 222-287): a cascade of
upper-bound checks; only a degree of at least 360 reaches the final branch,
which raises KerykeionException, embedded as `Except.error`. -/
def position_calc (degree : ℚ) (number_name : String) : Except String ZodiacPos :=
  if degree < 30 then
    .ok { name := number_name, quality := "Cardinal", element := "Fire", sign := "Ari",
          sign_num := 0, position := degree, abs_pos := degree, emoji := "♈️" }
  else if degree < 60 then
    .ok { name := number_name, quality := "Fixed", element := "Earth", sign := "Tau",
          sign_num := 1, position := degree - 30, abs_pos := degree, emoji := "♉️" }
  else if degree < 90 then
    .ok { name := number_name, quality := "Mutable", element := "Air", sign := "Gem",
          sign_num := 2, position := degree - 60, abs_pos := degree, emoji := "♊️" }
  else if degree < 120 then
    .ok { name := number_name, quality := "Cardinal", element := "Water", sign := "Can",
          sign_num := 3, position := degree - 90, abs_pos := degree, emoji := "♋️" }
  else if degree < 150 then
    .ok { name := number_name, quality := "Fixed", element := "Fire", sign := "Leo",
          sign_num := 4, position := degree - 120, abs_pos := degree, emoji := "♌️" }
  else if degree < 180 then
    .ok { name := number_name, quality := "Mutable", element := "Earth", sign := "Vir",
          sign_num := 5, position := degree - 150, abs_pos := degree, emoji := "♍️" }
  else if degree < 210 then
    .ok { name := number_name, quality := "Cardinal", element := "Air", sign := "Lib",
          sign_num := 6, position := degree - 180, abs_pos := degree, emoji := "♎️" }
  else if degree < 240 then
    .ok { name := number_name, quality := "Fixed", element := "Water", sign := "Sco",
          sign_num := 7, position := degree - 210, abs_pos := degree, emoji := "♏️" }
  else if degree < 270 then
    .ok { name := number_name, quality := "Mutable", element := "Fire", sign := "Sag",
          sign_num := 8, position := degree - 240, abs_pos := degree, emoji := "♐️" }
  else if degree < 300 then
    .ok { name := number_name, quality := "Cardinal", element := "Earth", sign := "Cap",
          sign_num := 9, position := degree - 270, abs_pos := degree, emoji := "♑️" }
  else if degree < 330 then
    .ok { name := number_name, quality := "Fixed", element := "Air", sign := "Aqu",
          sign_num := 10, position := degree - 300, abs_pos := degree, emoji := "♒️" }
  else if degree < 360 then
    .ok { name := number_name, quality := "Mutable", element := "Water", sign := "Pis",
          sign_num := 11, position := degree - 330, abs_pos := degree, emoji := "♓️" }
  else
    .error ("Error in calculating positions! Degrees: " ++ toString degree)

/-- The fixed Aries-to-Pisces sign order the spec states. -/
def SIGNS : List String :=
  ["Ari", "Tau", "Gem", "Can", "Leo", "Vir", "Lib", "Sco", "Sag", "Cap", "Aqu", "Pis"]

/-- The quality cycle Cardinal, Fixed, Mutable. -/
def QUALITIES : List String := ["Cardinal", "Fixed", "Mutable"]

/-- The element cycle Fire, Earth, Air, Water. -/
def ELEMENTS : List String := ["Fire", "Earth", "Air", "Water"]

lemma floor_div_30 {d : ℚ} (i : ℕ) (hlo : (i : ℚ) * 30 ≤ d) (hhi : d < ((i : ℚ) + 1) * 30) :
    ⌊d / 30⌋ = (i : ℤ) := by
  rw [Int.floor_eq_iff]
  constructor
  · rw [le_div_iff₀ (by norm_num : (0:ℚ) < 30)]
    push_cast
    linarith
  · rw [div_lt_iff₀ (by norm_num : (0:ℚ) < 30)]
    push_cast
    linarith

lemma pc_eval0 {d : ℚ} (n : String) (hhi : d < 30) :
    position_calc d n = Except.ok
      { name := n, quality := "Cardinal", element := "Fire",
        sign := "Ari", sign_num := 0, position := d, abs_pos := d, emoji := "♈️" } := by
  unfold position_calc
  rw [if_pos hhi]

lemma pc_eval1 {d : ℚ} (n : String) (hlo : 30 ≤ d) (hhi : d < 60) :
    position_calc d n = Except.ok
      { name := n, quality := "Fixed", element := "Earth",
        sign := "Tau", sign_num := 1, position := d - 30, abs_pos := d, emoji := "♉️" } := by
  unfold position_calc
  rw [if_neg (by linarith : ¬ d < 30), if_pos hhi]

lemma pc_eval2 {d : ℚ} (n : String) (hlo : 60 ≤ d) (hhi : d < 90) :
    position_calc d n = Except.ok
      { name := n, quality := "Mutable", element := "Air",
        sign := "Gem", sign_num := 2, position := d - 60, abs_pos := d, emoji := "♊️" } := by
  unfold position_calc
  rw [if_neg (by linarith : ¬ d < 30), if_neg (by linarith : ¬ d < 60), if_pos hhi]

lemma pc_eval3 {d : ℚ} (n : String) (hlo : 90 ≤ d) (hhi : d < 120) :
    position_calc d n = Except.ok
      { name := n, quality := "Cardinal", element := "Water",
        sign := "Can", sign_num := 3, position := d - 90, abs_pos := d, emoji := "♋️" } := by
  unfold position_calc
  rw [if_neg (by linarith : ¬ d < 30), if_neg (by linarith : ¬ d < 60),
    if_neg (by linarith : ¬ d < 90), if_pos hhi]

lemma pc_eval4 {d : ℚ} (n : String) (hlo : 120 ≤ d) (hhi : d < 150) :
    position_calc d n = Except.ok
      { name := n, quality := "Fixed", element := "Fire",
        sign := "Leo", sign_num := 4, position := d - 120, abs_pos := d, emoji := "♌️" } := by
  unfold position_calc
  rw [if_neg (by linarith : ¬ d < 30), if_neg (by linarith : ¬ d < 60),
    if_neg (by linarith : ¬ d < 90), if_neg (by linarith : ¬ d < 120), if_pos hhi]

lemma pc_eval5 {d : ℚ} (n : String) (hlo : 150 ≤ d) (hhi : d < 180) :
    position_calc d n = Except.ok
      { name := n, quality := "Mutable", element := "Earth",
        sign := "Vir", sign_num := 5, position := d - 150, abs_pos := d, emoji := "♍️" } := by
  unfold position_calc
  rw [if_neg (by linarith : ¬ d < 30), if_neg (by linarith : ¬ d < 60),
    if_neg (by linarith : ¬ d < 90), if_neg (by linarith : ¬ d < 120),
    if_neg (by linarith : ¬ d < 150), if_pos hhi]

lemma pc_eval6 {d : ℚ} (n : String) (hlo : 180 ≤ d) (hhi : d < 210) :
    position_calc d n = Except.ok
      { name := n, quality := "Cardinal", element := "Air",
        sign := "Lib", sign_num := 6, position := d - 180, abs_pos := d, emoji := "♎️" } := by
  unfold position_calc
  rw [if_neg (by linarith : ¬ d < 30), if_neg (by linarith : ¬ d < 60),
    if_neg (by linarith : ¬ d < 90), if_neg (by linarith : ¬ d < 120),
    if_neg (by linarith : ¬ d < 150), if_neg (by linarith : ¬ d < 180), if_pos hhi]

lemma pc_eval7 {d : ℚ} (n : String) (hlo : 210 ≤ d) (hhi : d < 240) :
    position_calc d n = Except.ok
      { name := n, quality := "Fixed", element := "Water",
        sign := "Sco", sign_num := 7, position := d - 210, abs_pos := d, emoji := "♏️" } := by
  unfold position_calc
  rw [if_neg (by linarith : ¬ d < 30), if_neg (by linarith : ¬ d < 60),
    if_neg (by linarith : ¬ d < 90), if_neg (by linarith : ¬ d < 120),
    if_neg (by linarith : ¬ d < 150), if_neg (by linarith : ¬ d < 180),
    if_neg (by linarith : ¬ d < 210), if_pos hhi]

lemma pc_eval8 {d : ℚ} (n : String) (hlo : 240 ≤ d) (hhi : d < 270) :
    position_calc d n = Except.ok
      { name := n, quality := "Mutable", element := "Fire",
        sign := "Sag", sign_num := 8, position := d - 240, abs_pos := d, emoji := "♐️" } := by
  unfold position_calc
  rw [if_neg (by linarith : ¬ d < 30), if_neg (by linarith : ¬ d < 60),
    if_neg (by linarith : ¬ d < 90), if_neg (by linarith : ¬ d < 120),
    if_neg (by linarith : ¬ d < 150), if_neg (by linarith : ¬ d < 180),
    if_neg (by linarith : ¬ d < 210), if_neg (by linarith : ¬ d < 240), if_pos hhi]

lemma pc_eval9 {d : ℚ} (n : String) (hlo : 270 ≤ d) (hhi : d < 300) :
    position_calc d n = Except.ok
      { name := n, quality := "Cardinal", element := "Earth",
        sign := "Cap", sign_num := 9, position := d - 270, abs_pos := d, emoji := "♑️" } := by
  unfold position_calc
  rw [if_neg (by linarith : ¬ d < 30), if_neg (by linarith : ¬ d < 60),
    if_neg (by linarith : ¬ d < 90), if_neg (by linarith : ¬ d < 120),
    if_neg (by linarith : ¬ d < 150), if_neg (by linarith : ¬ d < 180),
    if_neg (by linarith : ¬ d < 210), if_neg (by linarith : ¬ d < 240),
    if_neg (by linarith : ¬ d < 270), if_pos hhi]

lemma pc_eval10 {d : ℚ} (n : String) (hlo : 300 ≤ d) (hhi : d < 330) :
    position_calc d n = Except.ok
      { name := n, quality := "Fixed", element := "Air",
        sign := "Aqu", sign_num := 10, position := d - 300, abs_pos := d, emoji := "♒️" } := by
  unfold position_calc
  rw [if_neg (by linarith : ¬ d < 30), if_neg (by linarith : ¬ d < 60),
    if_neg (by linarith : ¬ d < 90), if_neg (by linarith : ¬ d < 120),
    if_neg (by linarith : ¬ d < 150), if_neg (by linarith : ¬ d < 180),
    if_neg (by linarith : ¬ d < 210), if_neg (by linarith : ¬ d < 240),
    if_neg (by linarith : ¬ d < 270), if_neg (by linarith : ¬ d < 300), if_pos hhi]

lemma pc_eval11 {d : ℚ} (n : String) (hlo : 330 ≤ d) (hhi : d < 360) :
    position_calc d n = Except.ok
      { name := n, quality := "Mutable", element := "Water",
        sign := "Pis", sign_num := 11, position := d - 330, abs_pos := d, emoji := "♓️" } := by
  unfold position_calc
  rw [if_neg (by linarith : ¬ d < 30), if_neg (by linarith : ¬ d < 60),
    if_neg (by linarith : ¬ d < 90), if_neg (by linarith : ¬ d < 120),
    if_neg (by linarith : ¬ d < 150), if_neg (by linarith : ¬ d < 180),
    if_neg (by linarith : ¬ d < 210), if_neg (by linarith : ¬ d < 240),
    if_neg (by linarith : ¬ d < 270), if_neg (by linarith : ¬ d < 300),
    if_neg (by linarith : ¬ d < 330), if_pos hhi]

lemma pc_eval_err {d : ℚ} (n : String) (hlo : 360 ≤ d) :
    position_calc d n =
      Except.error ("Error in calculating positions! Degrees: " ++ toString d) := by
  unfold position_calc
  rw [if_neg (by linarith : ¬ d < 30), if_neg (by linarith : ¬ d < 60),
    if_neg (by linarith : ¬ d < 90), if_neg (by linarith : ¬ d < 120),
    if_neg (by linarith : ¬ d < 150), if_neg (by linarith : ¬ d < 180),
    if_neg (by linarith : ¬ d < 210), if_neg (by linarith : ¬ d < 240),
    if_neg (by linarith : ¬ d < 270), if_neg (by linarith : ¬ d < 300),
    if_neg (by linarith : ¬ d < 330), if_neg (by linarith : ¬ d < 360)]

lemma position_calc_ok_of_lt {d : ℚ} (n : String) (h : d < 360) :
    ∃ z, position_calc d n = Except.ok z := by
  rcases lt_or_le d 30 with h0 | h0
  · exact ⟨_, pc_eval0 n h0⟩
  rcases lt_or_le d 60 with h1 | h1
  · exact ⟨_, pc_eval1 n h0 h1⟩
  rcases lt_or_le d 90 with h2 | h2
  · exact ⟨_, pc_eval2 n h1 h2⟩
  rcases lt_or_le d 120 with h3 | h3
  · exact ⟨_, pc_eval3 n h2 h3⟩
  rcases lt_or_le d 150 with h4 | h4
  · exact ⟨_, pc_eval4 n h3 h4⟩
  rcases lt_or_le d 180 with h5 | h5
  · exact ⟨_, pc_eval5 n h4 h5⟩
  rcases lt_or_le d 210 with h6 | h6
  · exact ⟨_, pc_eval6 n h5 h6⟩
  rcases lt_or_le d 240 with h7 | h7
  · exact ⟨_, pc_eval7 n h6 h7⟩
  rcases lt_or_le d 270 with h8 | h8
  · exact ⟨_, pc_eval8 n h7 h8⟩
  rcases lt_or_le d 300 with h9 | h9
  · exact ⟨_, pc_eval9 n h8 h9⟩
  rcases lt_or_le d 330 with h10 | h10
  · exact ⟨_, pc_eval10 n h9 h10⟩
  exact ⟨_, pc_eval11 n h10 h⟩

lemma position_calc_error_iff (d : ℚ) (n : String) :
    (∃ e, position_calc d n = Except.error e) ↔ 360 ≤ d := by
  constructor
  · rintro ⟨e, he⟩
    by_contra hlt
    push_neg at hlt
    obtain ⟨z, hz⟩ := position_calc_ok_of_lt n hlt
    rw [hz] at he
    exact Except.noConfusion he
  · intro h
    exact ⟨_, pc_eval_err n h⟩

lemma position_calc_branch (d : ℚ) (z : ZodiacPos) (i : ℕ) (hi : i < 12)
    (hsign : z.sign = SIGNS.getD i "") (hnum : z.sign_num = i)
    (hq : z.quality = QUALITIES.getD (i % 3) "") (he : z.element = ELEMENTS.getD (i % 4) "")
    (hpos : z.position = d - (i : ℚ) * 30)
    (hlo : (i : ℚ) * 30 ≤ d) (hhi : d < ((i : ℚ) + 1) * 30) :
    i < 12 ∧ (i : ℤ) = ⌊d / 30⌋ ∧ z.sign = SIGNS.getD i "" ∧ z.sign_num = i ∧
    z.quality = QUALITIES.getD (i % 3) "" ∧ z.element = ELEMENTS.getD (i % 4) "" ∧
    z.position = d - (i : ℚ) * 30 ∧ 0 ≤ z.position ∧ z.position < 30 ∧
    (z.sign_num : ℚ) * 30 + z.position = d ∧
    |(z.sign_num : ℚ) * 30 + z.position - d| ≤ 1 / 1000000000 := by
  have hsum : (z.sign_num : ℚ) * 30 + z.position = d := by rw [hnum, hpos]; ring
  refine ⟨hi, (floor_div_30 i hlo hhi).symm, hsign, hnum, hq, he, hpos, ?_, ?_, hsum, ?_⟩
  · rw [hpos]; linarith
  · rw [hpos]; linarith
  · rw [hsum, sub_self, abs_zero]; norm_num

/-- C3 counterexample: classifying -1 does not fail: the first branch of the
cascade (degree < 30) catches every negative degree, so -1 is classified
into Aries with the raw degree as its position. -/
theorem invalid_degree_cex :
    position_calc (-1 : ℚ) "Sun" = Except.ok
      { name := "Sun", quality := "Cardinal", element := "Fire", sign := "Ari",
        sign_num := 0, position := -1, abs_pos := -1, emoji := "♈️" } :=
  pc_eval0 "Sun" (by norm_num)

/-- C3 amended: the degree classifier fails with the KerykeionException
error exactly for input degrees of at least 360; degrees below 0 are not
rejected: in particular classifying 360 fails, while classifying -1
succeeds and returns the Aries descriptor with position -1. -/
theorem invalid_degree_amended :
    (∀ (d : ℚ) (n : String), (∃ e, position_calc d n = Except.error e) ↔ 360 ≤ d) ∧
    (∃ e, position_calc (360 : ℚ) "x" = Except.error e) ∧
    position_calc (-1 : ℚ) "Sun" = Except.ok
      { name := "Sun", quality := "Cardinal", element := "Fire", sign := "Ari",
        sign_num := 0, position := -1, abs_pos := -1, emoji := "♈️" } := by
  refine ⟨position_calc_error_iff, ⟨_, pc_eval_err "x" (by norm_num)⟩, pc_eval0 "Sun" (by norm_num)⟩

/-- C5: for every degree in [0, 360), the classifier returns the sign with
index i = floor(degree/30) in the fixed Aries-to-Pisces order, quality
cycling Cardinal, Fixed, Mutable by i mod 3, element cycling Fire, Earth,
Air, Water by i mod 4, position_in_sign = degree - i*30 in [0, 30), and
sign_num*30 + position_in_sign equal to the input degree (hence within
tolerance 1e-9). -/
theorem position_calc_classifies (d : ℚ) (n : String) (h0 : 0 ≤ d) (h1 : d < 360) :
    ∃ z : ZodiacPos, position_calc d n = Except.ok z ∧
      ∃ i : ℕ, i < 12 ∧ (i : ℤ) = ⌊d / 30⌋ ∧ z.sign = SIGNS.getD i "" ∧ z.sign_num = i ∧
        z.quality = QUALITIES.getD (i % 3) "" ∧ z.element = ELEMENTS.getD (i % 4) "" ∧
        z.position = d - (i : ℚ) * 30 ∧ 0 ≤ z.position ∧ z.position < 30 ∧
        (z.sign_num : ℚ) * 30 + z.position = d ∧
        |(z.sign_num : ℚ) * 30 + z.position - d| ≤ 1 / 1000000000 := by
  rcases lt_or_le d 30 with h | hb1
  · exact ⟨_, pc_eval0 n h, 0, position_calc_branch d _ 0 (by norm_num) rfl rfl rfl rfl
      (by push_cast; ring) (by push_cast; linarith) (by push_cast; linarith)⟩
  rcases lt_or_le d 60 with h | hb2
  · exact ⟨_, pc_eval1 n hb1 h, 1, position_calc_branch d _ 1 (by norm_num) rfl rfl rfl rfl
      (by push_cast; ring) (by push_cast; linarith) (by push_cast; linarith)⟩
  rcases lt_or_le d 90 with h | hb3
  · exact ⟨_, pc_eval2 n hb2 h, 2, position_calc_branch d _ 2 (by norm_num) rfl rfl rfl rfl
      (by push_cast; ring) (by push_cast; linarith) (by push_cast; linarith)⟩
  rcases lt_or_le d 120 with h | hb4
  · exact ⟨_, pc_eval3 n hb3 h, 3, position_calc_branch d _ 3 (by norm_num) rfl rfl rfl rfl
      (by push_cast; ring) (by push_cast; linarith) (by push_cast; linarith)⟩
  rcases lt_or_le d 150 with h | hb5
  · exact ⟨_, pc_eval4 n hb4 h, 4, position_calc_branch d _ 4 (by norm_num) rfl rfl rfl rfl
      (by push_cast; ring) (by push_cast; linarith) (by push_cast; linarith)⟩
  rcases lt_or_le d 180 with h | hb6
  · exact ⟨_, pc_eval5 n hb5 h, 5, position_calc_branch d _ 5 (by norm_num) rfl rfl rfl rfl
      (by push_cast; ring) (by push_cast; linarith) (by push_cast; linarith)⟩
  rcases lt_or_le d 210 with h | hb7
  · exact ⟨_, pc_eval6 n hb6 h, 6, position_calc_branch d _ 6 (by norm_num) rfl rfl rfl rfl
      (by push_cast; ring) (by push_cast; linarith) (by push_cast; linarith)⟩
  rcases lt_or_le d 240 with h | hb8
  · exact ⟨_, pc_eval7 n hb7 h, 7, position_calc_branch d _ 7 (by norm_num) rfl rfl rfl rfl
      (by push_cast; ring) (by push_cast; linarith) (by push_cast; linarith)⟩
  rcases lt_or_le d 270 with h | hb9
  · exact ⟨_, pc_eval8 n hb8 h, 8, position_calc_branch d _ 8 (by norm_num) rfl rfl rfl rfl
      (by push_cast; ring) (by push_cast; linarith) (by push_cast; linarith)⟩
  rcases lt_or_le d 300 with h | hb10
  · exact ⟨_, pc_eval9 n hb9 h, 9, position_calc_branch d _ 9 (by norm_num) rfl rfl rfl rfl
      (by push_cast; ring) (by push_cast; linarith) (by push_cast; linarith)⟩
  rcases lt_or_le d 330 with h | hb11
  · exact ⟨_, pc_eval10 n hb10 h, 10, position_calc_branch d _ 10 (by norm_num) rfl rfl rfl rfl
      (by push_cast; ring) (by push_cast; linarith) (by push_cast; linarith)⟩
  exact ⟨_, pc_eval11 n hb11 h1, 11, position_calc_branch d _ 11 (by norm_num) rfl rfl rfl rfl
    (by push_cast; ring) (by push_cast; linarith) (by push_cast; linarith)⟩

/-- An element of the list `houses()` returns: either a bare
position-in-sign number or a full house descriptor dictionary (the Python
list mixes both shapes). -/
inductive HouseEntry where
  | pos (q : ℚ)
  | full (z : ZodiacPos)
deriving DecidableEq

/-- The house labels "1" .. "12" passed to `position_calc` by `houses`. -/
def houseLabels : List String :=
  ["1", "2", "3", "4", "5", "6", "7", "8", "9", "10", "11", "12"]

/-- Embedding of `houses` (main.py lines 289-342): classifies the 12 cusp
degrees into house descriptors and returns the `houses_degree` list built
at lines 335-339, whose seventh element is the whole seventh-house
dictionary while every other element is that house's `position` value. -/
def houses (cusps : List ℚ) : Except String (List HouseEntry) := do
  let first_house ← position_calc (cusps.getD 0 0) "1"
  let second_house ← position_calc (cusps.getD 1 0) "2"
  let third_house ← position_calc (cusps.getD 2 0) "3"
  let fourth_house ← position_calc (cusps.getD 3 0) "4"
  let fifth_house ← position_calc (cusps.getD 4 0) "5"
  let sixth_house ← position_calc (cusps.getD 5 0) "6"
  let seventh_house ← position_calc (cusps.getD 6 0) "7"
  let eighth_house ← position_calc (cusps.getD 7 0) "8"
  let ninth_house ← position_calc (cusps.getD 8 0) "9"
  let tenth_house ← position_calc (cusps.getD 9 0) "10"
  let eleventh_house ← position_calc (cusps.getD 10 0) "11"
  let twelfth_house ← position_calc (cusps.getD 11 0) "12"
  return [HouseEntry.pos first_house.position, HouseEntry.pos second_house.position,
    HouseEntry.pos third_house.position, HouseEntry.pos fourth_house.position,
    HouseEntry.pos fifth_house.position, HouseEntry.pos sixth_house.position,
    HouseEntry.full seventh_house, HouseEntry.pos eighth_house.position,
    HouseEntry.pos ninth_house.position, HouseEntry.pos tenth_house.position,
    HouseEntry.pos eleventh_house.position, HouseEntry.pos twelfth_house.position]

/-- C9: for every valid 12-cusp input, the list `houses` returns has
exactly 12 elements; the element at index 6 (house 7) is the entire
seventh-house descriptor, whereas every other element is that house's
position-in-sign number. -/
theorem houses_list_shape (cusps : List ℚ) (hlen : cusps.length = 12)
    (hdeg : ∀ i, i < 12 → 0 ≤ cusps.getD i 0 ∧ cusps.getD i 0 < 360) :
    ∃ l : List HouseEntry, houses cusps = Except.ok l ∧ l.length = 12 ∧
      (∃ z : ZodiacPos, position_calc (cusps.getD 6 0) "7" = Except.ok z ∧
        l.getD 6 (HouseEntry.pos 0) = HouseEntry.full z) ∧
      (∀ i, i < 12 → i ≠ 6 →
        ∃ z : ZodiacPos, position_calc (cusps.getD i 0) (houseLabels.getD i "") = Except.ok z ∧
          l.getD i (HouseEntry.pos 0) = HouseEntry.pos z.position) := by
  obtain ⟨z0, hz0⟩ := position_calc_ok_of_lt "1" (hdeg 0 (by norm_num)).2
  obtain ⟨z1, hz1⟩ := position_calc_ok_of_lt "2" (hdeg 1 (by norm_num)).2
  obtain ⟨z2, hz2⟩ := position_calc_ok_of_lt "3" (hdeg 2 (by norm_num)).2
  obtain ⟨z3, hz3⟩ := position_calc_ok_of_lt "4" (hdeg 3 (by norm_num)).2
  obtain ⟨z4, hz4⟩ := position_calc_ok_of_lt "5" (hdeg 4 (by norm_num)).2
  obtain ⟨z5, hz5⟩ := position_calc_ok_of_lt "6" (hdeg 5 (by norm_num)).2
  obtain ⟨z6, hz6⟩ := position_calc_ok_of_lt "7" (hdeg 6 (by norm_num)).2
  obtain ⟨z7, hz7⟩ := position_calc_ok_of_lt "8" (hdeg 7 (by norm_num)).2
  obtain ⟨z8, hz8⟩ := position_calc_ok_of_lt "9" (hdeg 8 (by norm_num)).2
  obtain ⟨z9, hz9⟩ := position_calc_ok_of_lt "10" (hdeg 9 (by norm_num)).2
  obtain ⟨z10, hz10⟩ := position_calc_ok_of_lt "11" (hdeg 10 (by norm_num)).2
  obtain ⟨z11, hz11⟩ := position_calc_ok_of_lt "12" (hdeg 11 (by norm_num)).2
  have hall : houses cusps = Except.ok
      [HouseEntry.pos z0.position, HouseEntry.pos z1.position, HouseEntry.pos z2.position,
        HouseEntry.pos z3.position, HouseEntry.pos z4.position, HouseEntry.pos z5.position,
        HouseEntry.full z6, HouseEntry.pos z7.position, HouseEntry.pos z8.position,
        HouseEntry.pos z9.position, HouseEntry.pos z10.position, HouseEntry.pos z11.position] := by
    simp only [houses, hz0, hz1, hz2, hz3, hz4, hz5, hz6, hz7, hz8, hz9, hz10, hz11]
    rfl
  refine ⟨_, hall, rfl, ⟨z6, hz6, rfl⟩, ?_⟩
  intro i hi hne
  interval_cases i
  · exact ⟨z0, hz0, rfl⟩
  · exact ⟨z1, hz1, rfl⟩
  · exact ⟨z2, hz2, rfl⟩
  · exact ⟨z3, hz3, rfl⟩
  · exact ⟨z4, hz4, rfl⟩
  · exact ⟨z5, hz5, rfl⟩
  · exact absurd rfl hne
  · exact ⟨z7, hz7, rfl⟩
  · exact ⟨z8, hz8, rfl⟩
  · exact ⟨z9, hz9, rfl⟩
  · exact ⟨z10, hz10, rfl⟩
  · exact ⟨z11, hz11, rfl⟩

/-- C9 witness: the shape theorem applied to the twelve evenly spaced
cusps. -/
theorem houses_list_shape_witness :
    ∃ l : List HouseEntry, houses evenCusps = Except.ok l ∧ l.length = 12 ∧
      (∃ z : ZodiacPos, position_calc (evenCusps.getD 6 0) "7" = Except.ok z ∧
        l.getD 6 (HouseEntry.pos 0) = HouseEntry.full z) ∧
      (∀ i, i < 12 → i ≠ 6 →
        ∃ z : ZodiacPos, position_calc (evenCusps.getD i 0) (houseLabels.getD i "") = Except.ok z ∧
          l.getD i (HouseEntry.pos 0) = HouseEntry.pos z.position) :=
  houses_list_shape evenCusps (by norm_num [evenCusps])
    (by intro i hi; interval_cases i <;> norm_num [evenCusps])

/-- C5 witness: the classifier theorem applied at the concrete degree 75. -/
theorem position_calc_classifies_witness :
    ∃ z : ZodiacPos, position_calc (75 : ℚ) "Sun" = Except.ok z ∧
      ∃ i : ℕ, i < 12 ∧ (i : ℤ) = ⌊(75 : ℚ) / 30⌋ ∧ z.sign = SIGNS.getD i "" ∧ z.sign_num = i ∧
        z.quality = QUALITIES.getD (i % 3) "" ∧ z.element = ELEMENTS.getD (i % 4) "" ∧
        z.position = 75 - (i : ℚ) * 30 ∧ 0 ≤ z.position ∧ z.position < 30 ∧
        (z.sign_num : ℚ) * 30 + z.position = 75 ∧
        |(z.sign_num : ℚ) * 30 + z.position - 75| ≤ 1 / 1000000000 :=
  position_calc_classifies 75 "Sun" (by norm_num) (by norm_num)

/-- One iteration of the bucket loops of `lunar_phase_calc` (main.py lines
568-573 and 580-589): when the separation lies in the bucket
[bp x, bp (x+1)), the accumulator is overwritten with x + 1. -/
def scan_body (sep : ℚ) (bp : ℕ → ℚ) (acc : Option ℕ) (x : ℕ) : Option ℕ :=
  if bp x ≤ sep ∧ sep < bp (x + 1) then some (x + 1) else acc

/-- The bucket loop: fold `scan_body` over x = 0, ..., n - 1, starting from
the no-data accumulator. -/
def phase_scan (sep : ℚ) (bp : ℕ → ℚ) (n : ℕ) : Option ℕ :=
  (List.range n).foldl (scan_body sep bp) none

lemma phase_scan_succ (sep : ℚ) (bp : ℕ → ℚ) (n : ℕ) :
    phase_scan sep bp (n + 1) = scan_body sep bp (phase_scan sep bp n) n := by
  simp [phase_scan, List.range_succ]

/-- For breakpoints monotone up to n, the loop yields k exactly when k is a
1-based in-range bucket index whose half-open interval holds sep. -/
lemma phase_scan_eq_some (sep : ℚ) (bp : ℕ → ℚ) :
    ∀ n, (∀ i j, i ≤ j → j ≤ n → bp i ≤ bp j) → ∀ k,
      (phase_scan sep bp n = some k ↔
        1 ≤ k ∧ k ≤ n ∧ bp (k - 1) ≤ sep ∧ sep < bp k) := by
  intro n
  induction n with
  | zero =>
    intro _ k
    simp only [phase_scan, List.range_zero, List.foldl_nil]
    constructor
    · intro h
      exact Option.noConfusion h
    · rintro ⟨h1, h0, -⟩
      omega
  | succ n ih =>
    intro hmono k
    have hmono' : ∀ i j, i ≤ j → j ≤ n → bp i ≤ bp j :=
      fun i j hij hjn => hmono i j hij (Nat.le_succ_of_le hjn)
    rw [phase_scan_succ]
    unfold scan_body
    by_cases hc : bp n ≤ sep ∧ sep < bp (n + 1)
    · rw [if_pos hc]
      constructor
      · intro h
        have hk : n + 1 = k := by injection h
        subst hk
        exact ⟨by omega, le_refl _, by simpa using hc.1, hc.2⟩
      · rintro ⟨hk1, hkn, hlo, hhi⟩
        rcases Nat.lt_or_ge k (n + 1) with hlt | hge
        · exfalso
          have hkn' : k ≤ n := by omega
          have : bp k ≤ bp n := hmono k n hkn' (Nat.le_succ n)
          linarith [hc.1]
        · have : k = n + 1 := by omega
          subst this
          rfl
    · rw [if_neg hc]
      rw [ih hmono' k]
      constructor
      · rintro ⟨hk1, hkn, hlo, hhi⟩
        exact ⟨hk1, by omega, hlo, hhi⟩
      · rintro ⟨hk1, hkn, hlo, hhi⟩
        refine ⟨hk1, ?_, hlo, hhi⟩
        rcases Nat.lt_or_ge k (n + 1) with hlt | hge
        · omega
        · exfalso
          have : k = n + 1 := by omega
          subst this
          exact hc ⟨by simpa using hlo, hhi⟩

/-- For breakpoints monotone up to n, with sep between the first and last
breakpoint, the loop finds some bucket. -/
lemma phase_scan_isSome (sep : ℚ) (bp : ℕ → ℚ) :
    ∀ n, (∀ i j, i ≤ j → j ≤ n → bp i ≤ bp j) → bp 0 ≤ sep → sep < bp n →
      ∃ k, phase_scan sep bp n = some k := by
  intro n
  induction n with
  | zero =>
    intro _ h0 hn
    exact absurd (lt_of_le_of_lt h0 hn) (lt_irrefl _)
  | succ n ih =>
    intro hmono h0 hn
    rw [phase_scan_succ]
    unfold scan_body
    rcases le_or_lt (bp n) sep with hge | hlt
    · rw [if_pos ⟨hge, hn⟩]
      exact ⟨n + 1, rfl⟩
    · rw [if_neg (by rintro ⟨h1, -⟩; linarith)]
      exact ih (fun i j hij hjn => hmono i j hij (Nat.le_succ_of_le hjn)) h0 hlt

/-- The synodic bucket breakpoints: multiples of the equal step 360/28. -/
def mstepB (x : ℕ) : ℚ := (x : ℚ) * (360 / 28)

/-- Embedding of the `mphase` loop of `lunar_phase_calc` (main.py lines
566-573): 28 equal buckets [x*step, (x+1)*step) with step = 360/28; x + 1
is recorded for the bucket that holds the separation. -/
def mphase_of (sep : ℚ) : Option ℕ := phase_scan sep mstepB 28

/-- The fixed solar breakpoint table `sunstep` (main.py lines 575-578). -/
def sunstep : List ℚ :=
  [0, 30, 40, 50, 60, 70, 80, 90, 120, 130, 140, 150, 160, 170, 180,
    210, 220, 230, 240, 250, 260, 270, 300, 310, 320, 330, 340, 350]

/-- The breakpoint function of the `sphase` loop: `sunstep[x]` for x < 28,
and 360 above, embedding the `x == 27` special case that sets the final
upper bound to 360 (main.py lines 580-589). -/
def sunstepB (x : ℕ) : ℚ := (sunstep ++ [360]).getD x 360

/-- Embedding of the `sphase` loop (main.py lines 580-589). -/
def sphase_of (sep : ℚ) : Option ℕ := phase_scan sep sunstepB 28

lemma mstepB_mono : ∀ i j : ℕ, i ≤ j → mstepB i ≤ mstepB j := by
  intro i j hij
  have h : (i : ℚ) ≤ (j : ℚ) := by exact_mod_cast hij
  exact mul_le_mul_of_nonneg_right h (by norm_num)

lemma sunstepB_step_le : ∀ i : ℕ, sunstepB i ≤ sunstepB (i + 1) := by
  intro i
  rcases lt_or_le i 29 with h | h
  · interval_cases i <;> norm_num [sunstepB, sunstep]
  · have hl : (sunstep ++ [360]).length = 29 := by norm_num [sunstep]
    unfold sunstepB
    rw [List.getD_eq_default _ _ (by omega), List.getD_eq_default _ _ (by omega)]

lemma sunstepB_mono : Monotone sunstepB :=
  monotone_nat_of_le_succ sunstepB_step_le

/-- Embedding of `moon_emoji` (main.py lines 591-611).  The final Python
branch returns the numeric phase value itself rather than a glyph; it is
embedded as that value's decimal string and is unreachable for phases in
1..28. -/
def moon_emoji (phase : ℕ) : String :=
  if phase = 1 then "🌑"
  else if phase < 7 then "🌒"
  else if 7 ≤ phase ∧ phase ≤ 9 then "🌓"
  else if phase < 14 then "🌔"
  else if phase = 14 then "🌕"
  else if phase < 20 then "🌖"
  else if 20 ≤ phase ∧ phase ≤ 22 then "🌗"
  else if phase ≤ 28 then "🌘"
  else toString phase

/-- The lunar phase record `lunar_phase_calc` stores (main.py lines
613-618).  The Python sentinel string `NO DATA` (kept when no bucket
matches) is embedded as `none`. -/
structure LunarPhase where
  degrees_between : ℚ
  moon_phase : Option ℕ
  sun_phase : Option ℕ
  moon_emoji : String
deriving DecidableEq

/-- Embedding of `lunar_phase_calc` (main.py lines 553-618) as a function
of the Sun and Moon longitudes: normalizes the separation into [0, 360)
by a single conditional + 360, runs the two bucket loops, and renders the
emoji.  When the synodic loop matches no bucket the source would pass the
string sentinel to `moon_emoji` (a TypeError in Python); that unreachable
path is embedded as the sentinel itself. -/
def lunar_phase_calc (sun_deg moon_deg : ℚ) : LunarPhase :=
  let diff := moon_deg - sun_deg
  let degrees_between := if diff < 0 then diff + 360 else diff
  { degrees_between := degrees_between
    moon_phase := mphase_of degrees_between
    sun_phase := sphase_of degrees_between
    moon_emoji :=
      match mphase_of degrees_between with
      | some p => moon_emoji p
      | none => "NO DATA" }

lemma moon_phase_at {sep : ℚ} (h0 : 0 ≤ sep) :
    (lunar_phase_calc 0 sep).moon_phase = mphase_of sep := by
  show mphase_of (if sep - 0 < 0 then sep - 0 + 360 else sep - 0) = mphase_of sep
  rw [if_neg (by linarith), sub_zero]

lemma sun_phase_at {sep : ℚ} (h0 : 0 ≤ sep) :
    (lunar_phase_calc 0 sep).sun_phase = sphase_of sep := by
  show sphase_of (if sep - 0 < 0 then sep - 0 + 360 else sep - 0) = sphase_of sep
  rw [if_neg (by linarith), sub_zero]

lemma moon_emoji_at {sep : ℚ} (h0 : 0 ≤ sep) :
    (lunar_phase_calc 0 sep).moon_emoji =
      (match mphase_of sep with | some p => moon_emoji p | none => "NO DATA") := by
  show (match mphase_of (if sep - 0 < 0 then sep - 0 + 360 else sep - 0) with
        | some p => moon_emoji p | none => "NO DATA") = _
  rw [if_neg (by linarith), sub_zero]

/-- The synodic loop agrees with the closed-form index
floor(sep / (360/28)) + 1 on [0, 360). -/
lemma mphase_formula (sep : ℚ) (h0 : 0 ≤ sep) (h1 : sep < 360) :
    mphase_of sep = some ((⌊sep / (360 / 28)⌋).toNat + 1) := by
  have hstep : (0 : ℚ) < 360 / 28 := by norm_num
  have hj0 : (0 : ℤ) ≤ ⌊sep / (360 / 28)⌋ := Int.floor_nonneg.2 (by positivity)
  have hj28 : ⌊sep / (360 / 28)⌋ < 28 := by
    rw [Int.floor_lt]
    rw [div_lt_iff₀ hstep]
    push_cast
    linarith
  set j := ⌊sep / (360 / 28)⌋ with hjdef
  have hcast : ((j.toNat : ℕ) : ℚ) = (j : ℚ) := by exact_mod_cast Int.toNat_of_nonneg hj0
  have hmono : ∀ i k : ℕ, i ≤ k → k ≤ 28 → mstepB i ≤ mstepB k :=
    fun i k hik _ => mstepB_mono i k hik
  unfold mphase_of
  rw [phase_scan_eq_some sep mstepB 28 hmono (j.toNat + 1)]
  refine ⟨by omega, by omega, ?_, ?_⟩
  · show mstepB (j.toNat + 1 - 1) ≤ sep
    rw [Nat.add_sub_cancel]
    unfold mstepB
    rw [hcast, ← le_div_iff₀ hstep]
    exact Int.floor_le _
  · show sep < mstepB (j.toNat + 1)
    unfold mstepB
    push_cast [hcast]
    rw [← div_lt_iff₀ hstep]
    exact Int.lt_floor_add_one _

/-- The emoji threshold table exactly as the claim states it: 1 new; 2-6
waxing crescent; 7-9 first quarter; 10-13 waxing gibbous; 14 full; 15-19
waning gibbous; 20-22 last quarter; 23-28 waning crescent. -/
def emojiSpec (p : ℕ) : String :=
  if p = 1 then "🌑"
  else if 2 ≤ p ∧ p ≤ 6 then "🌒"
  else if 7 ≤ p ∧ p ≤ 9 then "🌓"
  else if 10 ≤ p ∧ p ≤ 13 then "🌔"
  else if p = 14 then "🌕"
  else if 15 ≤ p ∧ p ≤ 19 then "🌖"
  else if 20 ≤ p ∧ p ≤ 22 then "🌗"
  else if 23 ≤ p ∧ p ≤ 28 then "🌘"
  else ""

/-- C6 counterexample: at separation exactly 180 the synodic index is 15,
not 14, and the emoji is the waning-gibbous glyph, not the full-moon one:
bucket 14 is the half-open interval from 13*(360/28) up to but excluding
14*(360/28) = 180.  The floating-point source behaves identically, since
14*(360.0/28.0) evaluates to exactly 180.0 in IEEE doubles. -/
theorem synodic_at_180_cex :
    (lunar_phase_calc 0 180).moon_phase = some 15 ∧
    (lunar_phase_calc 0 180).moon_emoji = "🌖" := by
  have h180 : mphase_of 180 = some 15 := by
    rw [mphase_formula 180 (by norm_num) (by norm_num)]
    norm_num
    decide
  constructor
  · rw [moon_phase_at (by norm_num)]
    exact h180
  · rw [moon_emoji_at (by norm_num), h180]
    rfl

/-- C6 amended: the synodic index equals floor(separation / (360/28)) + 1
for every separation in [0, 360); separation 0 yields index 1 with the
new-moon emoji; separation exactly 180 yields index 15 (not 14) with the
waning-gibbous emoji, since bucket 14 is half-open and excludes 180; and
the emoji is determined from the synodic index by the fixed 8-glyph
threshold table (1 new; 2-6 waxing-crescent; 7-9 first-quarter; 10-13
waxing-gibbous; 14 full; 15-19 waning-gibbous; 20-22 last-quarter; 23-28
waning-crescent). -/
theorem synodic_index_amended :
    (∀ sep : ℚ, 0 ≤ sep → sep < 360 →
      mphase_of sep = some ((⌊sep / (360 / 28)⌋).toNat + 1)) ∧
    (lunar_phase_calc 0 0).moon_phase = some 1 ∧
    (lunar_phase_calc 0 0).moon_emoji = "🌑" ∧
    (lunar_phase_calc 0 180).moon_phase = some 15 ∧
    (lunar_phase_calc 0 180).moon_emoji = "🌖" ∧
    (∀ p : ℕ, 1 ≤ p → p ≤ 28 → moon_emoji p = emojiSpec p) := by
  have h0' : mphase_of 0 = some 1 := by
    rw [mphase_formula 0 (by norm_num) (by norm_num)]
    norm_num
  have h180 : mphase_of 180 = some 15 := by
    rw [mphase_formula 180 (by norm_num) (by norm_num)]
    norm_num
    decide
  refine ⟨mphase_formula, ?_, ?_, ?_, ?_, ?_⟩
  · rw [moon_phase_at (by norm_num)]
    exact h0'
  · rw [moon_emoji_at (by norm_num), h0']
    rfl
  · rw [moon_phase_at (by norm_num)]
    exact h180
  · rw [moon_emoji_at (by norm_num), h180]
    rfl
  · intro p h1 h2
    interval_cases p <;> rfl

/-- C7: for every Sun-Moon separation in [0, 360), the solar index is the
unique 1-based bucket k such that the separation lies in
[table[k-1], table[k]) over the fixed breakpoint table
[0,30,40,...,340,350], with bucket 28 covering [350, 360). -/
theorem solar_index_buckets (sep : ℚ) (h0 : 0 ≤ sep) (h1 : sep < 360) :
    (∃ k, (lunar_phase_calc 0 sep).sun_phase = some k ∧ 1 ≤ k ∧ k ≤ 28) ∧
    (∀ k : ℕ, 1 ≤ k → k ≤ 28 →
      ((lunar_phase_calc 0 sep).sun_phase = some k ↔
        sunstepB (k - 1) ≤ sep ∧ sep < sunstepB k)) := by
  have hmono : ∀ i j : ℕ, i ≤ j → j ≤ 28 → sunstepB i ≤ sunstepB j :=
    fun i j hij _ => sunstepB_mono hij
  have hsp : (lunar_phase_calc 0 sep).sun_phase = sphase_of sep := sun_phase_at h0
  have h00 : sunstepB 0 = 0 := rfl
  have h28 : sunstepB 28 = 360 := rfl
  constructor
  · obtain ⟨k, hk⟩ := phase_scan_isSome sep sunstepB 28 hmono
      (by rw [h00]; exact h0) (by rw [h28]; exact h1)
    have hb := (phase_scan_eq_some sep sunstepB 28 hmono k).1 hk
    refine ⟨k, ?_, hb.1, hb.2.1⟩
    rw [hsp]
    exact hk
  · intro k hk1 hk2
    rw [hsp]
    unfold sphase_of
    rw [phase_scan_eq_some sep sunstepB 28 hmono k]
    constructor
    · rintro ⟨-, -, hlo, hhi⟩
      exact ⟨hlo, hhi⟩
    · rintro ⟨hlo, hhi⟩
      exact ⟨hk1, hk2, hlo, hhi⟩

/-- C7 witness: the solar bucket theorem applied at separation 45, which
lies in bucket 3 = [40, 50). -/
theorem solar_index_buckets_witness :
    (∃ k, (lunar_phase_calc 0 45).sun_phase = some k ∧ 1 ≤ k ∧ k ≤ 28) ∧
    (∀ k : ℕ, 1 ≤ k → k ≤ 28 →
      ((lunar_phase_calc 0 45).sun_phase = some k ↔
        sunstepB (k - 1) ≤ 45 ∧ (45 : ℚ) < sunstepB k)) :=
  solar_index_buckets 45 (by norm_num) (by norm_num)

/-- The i-th consecutive-cusp interval test of the assignment chain of
`for_every_planet`: cusp i to cusp (i+1) mod 12. -/
def interval_match (cusps : List ℚ) (p : ℚ) (i : ℕ) : Bool :=
  point_between (cusps.getD i 0) (cusps.getD ((i + 1) % 12) 0) p

/-- The ordered house labels assigned by `for_every_planet`. -/
def houseNames : List String :=
  ["1st House", "2nd House", "3rd House", "4th House", "5th House", "6th House",
    "7th House", "8th House", "9th House", "10th House", "11th House", "12th House"]

/-- Twelve identical cusps: a degenerate configuration under which every
interval test fails for a longitude off the shared cusp, and every interval
test succeeds for the longitude at the shared cusp. -/
def zeroCusps : List ℚ := [0, 0, 0, 0, 0, 0, 0, 0, 0, 0, 0, 0]

/-- Twelve body longitudes all equal to 10 degrees. -/
def tenLongs : List ℚ := [10, 10, 10, 10, 10, 10, 10, 10, 10, 10, 10, 10]

/-- Twelve zero longitudinal speeds. -/
def zeroSpeeds : List ℚ := [0, 0, 0, 0, 0, 0, 0, 0, 0, 0, 0, 0]

/-- C10: when an interval of the assignment chain matches and no earlier
interval matches, `for_every_planet` returns that interval's house: the
intervals are tested in order from house 1 to house 12 and the first match
determines the assignment, so with overlapping or degenerate cusp data the
body goes to the lowest-numbered matching house. -/
theorem first_match_wins (cusps : List ℚ) (p : ℚ) (i : ℕ) (hi : i < 12)
    (hmatch : interval_match cusps p i = true)
    (hfirst : ∀ j, j < i → interval_match cusps p j = false) :
    for_every_planet cusps p = houseNames.getD i "" := by
  interval_cases i
  · simp only [interval_match] at hmatch
    norm_num at hmatch
    simp [for_every_planet, hmatch, houseNames]
  · have g0 := hfirst 0 (by norm_num)
    simp only [interval_match] at hmatch g0
    norm_num at hmatch g0
    simp [for_every_planet, hmatch, g0, houseNames]
  · have g0 := hfirst 0 (by norm_num)
    have g1 := hfirst 1 (by norm_num)
    simp only [interval_match] at hmatch g0 g1
    norm_num at hmatch g0 g1
    simp [for_every_planet, hmatch, g0, g1, houseNames]
  · have g0 := hfirst 0 (by norm_num)
    have g1 := hfirst 1 (by norm_num)
    have g2 := hfirst 2 (by norm_num)
    simp only [interval_match] at hmatch g0 g1 g2
    norm_num at hmatch g0 g1 g2
    simp [for_every_planet, hmatch, g0, g1, g2, houseNames]
  · have g0 := hfirst 0 (by norm_num)
    have g1 := hfirst 1 (by norm_num)
    have g2 := hfirst 2 (by norm_num)
    have g3 := hfirst 3 (by norm_num)
    simp only [interval_match] at hmatch g0 g1 g2 g3
    norm_num at hmatch g0 g1 g2 g3
    simp [for_every_planet, hmatch, g0, g1, g2, g3, houseNames]
  · have g0 := hfirst 0 (by norm_num)
    have g1 := hfirst 1 (by norm_num)
    have g2 := hfirst 2 (by norm_num)
    have g3 := hfirst 3 (by norm_num)
    have g4 := hfirst 4 (by norm_num)
    simp only [interval_match] at hmatch g0 g1 g2 g3 g4
    norm_num at hmatch g0 g1 g2 g3 g4
    simp [for_every_planet, hmatch, g0, g1, g2, g3, g4, houseNames]
  · have g0 := hfirst 0 (by norm_num)
    have g1 := hfirst 1 (by norm_num)
    have g2 := hfirst 2 (by norm_num)
    have g3 := hfirst 3 (by norm_num)
    have g4 := hfirst 4 (by norm_num)
    have g5 := hfirst 5 (by norm_num)
    simp only [interval_match] at hmatch g0 g1 g2 g3 g4 g5
    norm_num at hmatch g0 g1 g2 g3 g4 g5
    simp [for_every_planet, hmatch, g0, g1, g2, g3, g4, g5, houseNames]
  · have g0 := hfirst 0 (by norm_num)
    have g1 := hfirst 1 (by norm_num)
    have g2 := hfirst 2 (by norm_num)
    have g3 := hfirst 3 (by norm_num)
    have g4 := hfirst 4 (by norm_num)
    have g5 := hfirst 5 (by norm_num)
    have g6 := hfirst 6 (by norm_num)
    simp only [interval_match] at hmatch g0 g1 g2 g3 g4 g5 g6
    norm_num at hmatch g0 g1 g2 g3 g4 g5 g6
    simp [for_every_planet, hmatch, g0, g1, g2, g3, g4, g5, g6, houseNames]
  · have g0 := hfirst 0 (by norm_num)
    have g1 := hfirst 1 (by norm_num)
    have g2 := hfirst 2 (by norm_num)
    have g3 := hfirst 3 (by norm_num)
    have g4 := hfirst 4 (by norm_num)
    have g5 := hfirst 5 (by norm_num)
    have g6 := hfirst 6 (by norm_num)
    have g7 := hfirst 7 (by norm_num)
    simp only [interval_match] at hmatch g0 g1 g2 g3 g4 g5 g6 g7
    norm_num at hmatch g0 g1 g2 g3 g4 g5 g6 g7
    simp [for_every_planet, hmatch, g0, g1, g2, g3, g4, g5, g6, g7, houseNames]
  · have g0 := hfirst 0 (by norm_num)
    have g1 := hfirst 1 (by norm_num)
    have g2 := hfirst 2 (by norm_num)
    have g3 := hfirst 3 (by norm_num)
    have g4 := hfirst 4 (by norm_num)
    have g5 := hfirst 5 (by norm_num)
    have g6 := hfirst 6 (by norm_num)
    have g7 := hfirst 7 (by norm_num)
    have g8 := hfirst 8 (by norm_num)
    simp only [interval_match] at hmatch g0 g1 g2 g3 g4 g5 g6 g7 g8
    norm_num at hmatch g0 g1 g2 g3 g4 g5 g6 g7 g8
    simp [for_every_planet, hmatch, g0, g1, g2, g3, g4, g5, g6, g7, g8, houseNames]
  · have g0 := hfirst 0 (by norm_num)
    have g1 := hfirst 1 (by norm_num)
    have g2 := hfirst 2 (by norm_num)
    have g3 := hfirst 3 (by norm_num)
    have g4 := hfirst 4 (by norm_num)
    have g5 := hfirst 5 (by norm_num)
    have g6 := hfirst 6 (by norm_num)
    have g7 := hfirst 7 (by norm_num)
    have g8 := hfirst 8 (by norm_num)
    have g9 := hfirst 9 (by norm_num)
    simp only [interval_match] at hmatch g0 g1 g2 g3 g4 g5 g6 g7 g8 g9
    norm_num at hmatch g0 g1 g2 g3 g4 g5 g6 g7 g8 g9
    simp [for_every_planet, hmatch, g0, g1, g2, g3, g4, g5, g6, g7, g8, g9, houseNames]
  · have g0 := hfirst 0 (by norm_num)
    have g1 := hfirst 1 (by norm_num)
    have g2 := hfirst 2 (by norm_num)
    have g3 := hfirst 3 (by norm_num)
    have g4 := hfirst 4 (by norm_num)
    have g5 := hfirst 5 (by norm_num)
    have g6 := hfirst 6 (by norm_num)
    have g7 := hfirst 7 (by norm_num)
    have g8 := hfirst 8 (by norm_num)
    have g9 := hfirst 9 (by norm_num)
    have g10 := hfirst 10 (by norm_num)
    simp only [interval_match] at hmatch g0 g1 g2 g3 g4 g5 g6 g7 g8 g9 g10
    norm_num at hmatch g0 g1 g2 g3 g4 g5 g6 g7 g8 g9 g10
    simp [for_every_planet, hmatch, g0, g1, g2, g3, g4, g5, g6, g7, g8, g9, g10, houseNames]

/-- C10 witness: with twelve identical cusps every interval contains the
point 0, and the body is assigned the lowest-numbered house, house 1. -/
theorem first_match_wins_witness :
    interval_match zeroCusps 0 0 = true ∧
    for_every_planet zeroCusps 0 = houseNames.getD 0 "" := by
  have hm : interval_match zeroCusps 0 0 = true := by
    norm_num [interval_match, zeroCusps, point_between, fmod, rtrunc, List.getD]
  exact ⟨hm, first_match_wins zeroCusps 0 0 (by norm_num) hm
    (fun j hj => absurd hj (Nat.not_lt_zero j))⟩

/-- A body dictionary after `planets_in_houses` (main.py lines 430-551):
the classifier descriptor extended with the assigned house and the
retrograde flag. -/
structure BodyPosition where
  z : ZodiacPos
  house : String
  retrograde : Bool
deriving DecidableEq

/-- The data `get_all` leaves on the instance for one chart: the twelve
house descriptors (`houses_list`), the twelve body dictionaries in the
canonical order (`planets_list`), and the lunar phase. -/
structure Chart where
  houses_list : List ZodiacPos
  planets_list : List BodyPosition
  lunar_phase : LunarPhase
deriving DecidableEq

/-- Embedding of the core chart computation `get_all` (main.py lines
631-636) as a function of its ephemeris inputs: the 12 house cusp degrees
(`houses_degree_ut`), the 12 body longitudes (`planets_degrees`, canonical
order Sun, Moon, ..., True_Node) and the 12 longitudinal speeds.  It
classifies every body and cusp with `position_calc` (as `planets` and
`houses` do), assigns each body a house with `for_every_planet`, sets the
retrograde flag by the sign of the speed, and computes the lunar phase
from the Sun and Moon longitudes.  Nothing else flows in: the source
consults no clock or randomness in this core. -/
def buildChart (cusps longs speeds : List ℚ) : Except String Chart := do
  let sun ← position_calc (longs.getD 0 0) "Sun"
  let moon ← position_calc (longs.getD 1 0) "Moon"
  let mercury ← position_calc (longs.getD 2 0) "Mercury"
  let venus ← position_calc (longs.getD 3 0) "Venus"
  let mars ← position_calc (longs.getD 4 0) "Mars"
  let jupiter ← position_calc (longs.getD 5 0) "Jupiter"
  let saturn ← position_calc (longs.getD 6 0) "Saturn"
  let uranus ← position_calc (longs.getD 7 0) "Uranus"
  let neptune ← position_calc (longs.getD 8 0) "Neptune"
  let pluto ← position_calc (longs.getD 9 0) "Pluto"
  let mean_node ← position_calc (longs.getD 10 0) "Mean_Node"
  let true_node ← position_calc (longs.getD 11 0) "True_Node"
  let first_house ← position_calc (cusps.getD 0 0) "1"
  let second_house ← position_calc (cusps.getD 1 0) "2"
  let third_house ← position_calc (cusps.getD 2 0) "3"
  let fourth_house ← position_calc (cusps.getD 3 0) "4"
  let fifth_house ← position_calc (cusps.getD 4 0) "5"
  let sixth_house ← position_calc (cusps.getD 5 0) "6"
  let seventh_house ← position_calc (cusps.getD 6 0) "7"
  let eighth_house ← position_calc (cusps.getD 7 0) "8"
  let ninth_house ← position_calc (cusps.getD 8 0) "9"
  let tenth_house ← position_calc (cusps.getD 9 0) "10"
  let eleventh_house ← position_calc (cusps.getD 10 0) "11"
  let twelfth_house ← position_calc (cusps.getD 11 0) "12"
  return {
    houses_list := [first_house, second_house, third_house, fourth_house,
      fifth_house, sixth_house, seventh_house, eighth_house, ninth_house,
      tenth_house, eleventh_house, twelfth_house]
    planets_list := [
      { z := sun, house := for_every_planet cusps (longs.getD 0 0),
        retrograde := decide (speeds.getD 0 0 < 0) },
      { z := moon, house := for_every_planet cusps (longs.getD 1 0),
        retrograde := decide (speeds.getD 1 0 < 0) },
      { z := mercury, house := for_every_planet cusps (longs.getD 2 0),
        retrograde := decide (speeds.getD 2 0 < 0) },
      { z := venus, house := for_every_planet cusps (longs.getD 3 0),
        retrograde := decide (speeds.getD 3 0 < 0) },
      { z := mars, house := for_every_planet cusps (longs.getD 4 0),
        retrograde := decide (speeds.getD 4 0 < 0) },
      { z := jupiter, house := for_every_planet cusps (longs.getD 5 0),
        retrograde := decide (speeds.getD 5 0 < 0) },
      { z := saturn, house := for_every_planet cusps (longs.getD 6 0),
        retrograde := decide (speeds.getD 6 0 < 0) },
      { z := uranus, house := for_every_planet cusps (longs.getD 7 0),
        retrograde := decide (speeds.getD 7 0 < 0) },
      { z := neptune, house := for_every_planet cusps (longs.getD 8 0),
        retrograde := decide (speeds.getD 8 0 < 0) },
      { z := pluto, house := for_every_planet cusps (longs.getD 9 0),
        retrograde := decide (speeds.getD 9 0 < 0) },
      { z := mean_node, house := for_every_planet cusps (longs.getD 10 0),
        retrograde := decide (speeds.getD 10 0 < 0) },
      { z := true_node, house := for_every_planet cusps (longs.getD 11 0),
        retrograde := decide (speeds.getD 11 0 < 0) }]
    lunar_phase := lunar_phase_calc (longs.getD 0 0) (longs.getD 1 0) }

/-- For in-range cusps and longitudes the chart build succeeds, and the
assigned houses are exactly the twelve values of `for_every_planet`. -/
lemma buildChart_ok (cusps longs speeds : List ℚ)
    (hc : ∀ i, i < 12 → cusps.getD i 0 < 360)
    (hl : ∀ i, i < 12 → longs.getD i 0 < 360) :
    ∃ ch, buildChart cusps longs speeds = Except.ok ch ∧
      ch.planets_list.map (fun b => b.house) =
        [for_every_planet cusps (longs.getD 0 0), for_every_planet cusps (longs.getD 1 0),
          for_every_planet cusps (longs.getD 2 0), for_every_planet cusps (longs.getD 3 0),
          for_every_planet cusps (longs.getD 4 0), for_every_planet cusps (longs.getD 5 0),
          for_every_planet cusps (longs.getD 6 0), for_every_planet cusps (longs.getD 7 0),
          for_every_planet cusps (longs.getD 8 0), for_every_planet cusps (longs.getD 9 0),
          for_every_planet cusps (longs.getD 10 0), for_every_planet cusps (longs.getD 11 0)] := by
  obtain ⟨z0, hz0⟩ := position_calc_ok_of_lt "Sun" (hl 0 (by norm_num))
  obtain ⟨z1, hz1⟩ := position_calc_ok_of_lt "Moon" (hl 1 (by norm_num))
  obtain ⟨z2, hz2⟩ := position_calc_ok_of_lt "Mercury" (hl 2 (by norm_num))
  obtain ⟨z3, hz3⟩ := position_calc_ok_of_lt "Venus" (hl 3 (by norm_num))
  obtain ⟨z4, hz4⟩ := position_calc_ok_of_lt "Mars" (hl 4 (by norm_num))
  obtain ⟨z5, hz5⟩ := position_calc_ok_of_lt "Jupiter" (hl 5 (by norm_num))
  obtain ⟨z6, hz6⟩ := position_calc_ok_of_lt "Saturn" (hl 6 (by norm_num))
  obtain ⟨z7, hz7⟩ := position_calc_ok_of_lt "Uranus" (hl 7 (by norm_num))
  obtain ⟨z8, hz8⟩ := position_calc_ok_of_lt "Neptune" (hl 8 (by norm_num))
  obtain ⟨z9, hz9⟩ := position_calc_ok_of_lt "Pluto" (hl 9 (by norm_num))
  obtain ⟨z10, hz10⟩ := position_calc_ok_of_lt "Mean_Node" (hl 10 (by norm_num))
  obtain ⟨z11, hz11⟩ := position_calc_ok_of_lt "True_Node" (hl 11 (by norm_num))
  obtain ⟨w0, hw0⟩ := position_calc_ok_of_lt "1" (hc 0 (by norm_num))
  obtain ⟨w1, hw1⟩ := position_calc_ok_of_lt "2" (hc 1 (by norm_num))
  obtain ⟨w2, hw2⟩ := position_calc_ok_of_lt "3" (hc 2 (by norm_num))
  obtain ⟨w3, hw3⟩ := position_calc_ok_of_lt "4" (hc 3 (by norm_num))
  obtain ⟨w4, hw4⟩ := position_calc_ok_of_lt "5" (hc 4 (by norm_num))
  obtain ⟨w5, hw5⟩ := position_calc_ok_of_lt "6" (hc 5 (by norm_num))
  obtain ⟨w6, hw6⟩ := position_calc_ok_of_lt "7" (hc 6 (by norm_num))
  obtain ⟨w7, hw7⟩ := position_calc_ok_of_lt "8" (hc 7 (by norm_num))
  obtain ⟨w8, hw8⟩ := position_calc_ok_of_lt "9" (hc 8 (by norm_num))
  obtain ⟨w9, hw9⟩ := position_calc_ok_of_lt "10" (hc 9 (by norm_num))
  obtain ⟨w10, hw10⟩ := position_calc_ok_of_lt "11" (hc 10 (by norm_num))
  obtain ⟨w11, hw11⟩ := position_calc_ok_of_lt "12" (hc 11 (by norm_num))
  have hall : buildChart cusps longs speeds = Except.ok {
      houses_list := [w0, w1, w2, w3, w4, w5, w6, w7, w8, w9, w10, w11]
      planets_list := [
        { z := z0, house := for_every_planet cusps (longs.getD 0 0),
          retrograde := decide (speeds.getD 0 0 < 0) },
        { z := z1, house := for_every_planet cusps (longs.getD 1 0),
          retrograde := decide (speeds.getD 1 0 < 0) },
        { z := z2, house := for_every_planet cusps (longs.getD 2 0),
          retrograde := decide (speeds.getD 2 0 < 0) },
        { z := z3, house := for_every_planet cusps (longs.getD 3 0),
          retrograde := decide (speeds.getD 3 0 < 0) },
        { z := z4, house := for_every_planet cusps (longs.getD 4 0),
          retrograde := decide (speeds.getD 4 0 < 0) },
        { z := z5, house := for_every_planet cusps (longs.getD 5 0),
          retrograde := decide (speeds.getD 5 0 < 0) },
        { z := z6, house := for_every_planet cusps (longs.getD 6 0),
          retrograde := decide (speeds.getD 6 0 < 0) },
        { z := z7, house := for_every_planet cusps (longs.getD 7 0),
          retrograde := decide (speeds.getD 7 0 < 0) },
        { z := z8, house := for_every_planet cusps (longs.getD 8 0),
          retrograde := decide (speeds.getD 8 0 < 0) },
        { z := z9, house := for_every_planet cusps (longs.getD 9 0),
          retrograde := decide (speeds.getD 9 0 < 0) },
        { z := z10, house := for_every_planet cusps (longs.getD 10 0),
          retrograde := decide (speeds.getD 10 0 < 0) },
        { z := z11, house := for_every_planet cusps (longs.getD 11 0),
          retrograde := decide (speeds.getD 11 0 < 0) }]
      lunar_phase := lunar_phase_calc (longs.getD 0 0) (longs.getD 1 0) } := by
    simp only [buildChart, hz0, hz1, hz2, hz3, hz4, hz5, hz6, hz7, hz8, hz9, hz10, hz11,
      hw0, hw1, hw2, hw3, hw4, hw5, hw6, hw7, hw8, hw9, hw10, hw11]
    rfl
  exact ⟨_, hall, rfl⟩

/-- C8: the core chart computation is deterministic: two runs on identical
ephemeris inputs (the same 12 cusp degrees, 12 body longitudes and 12
speeds) produce identical charts in every field.  The embedded core is a
pure function of exactly these inputs; the source consults no clock or
randomness between `planets_in_houses`, `lunar_phase_calc` and
`make_lists`. -/
theorem buildChart_deterministic (cusps longs speeds cusps2 longs2 speeds2 : List ℚ)
    (hc : cusps = cusps2) (hl : longs = longs2) (hs : speeds = speeds2) :
    buildChart cusps longs speeds = buildChart cusps2 longs2 speeds2 := by
  rw [hc, hl, hs]

/-- C8 witness: determinism applied at a concrete ephemeris input. -/
theorem buildChart_deterministic_witness :
    buildChart evenCusps tenLongs zeroSpeeds = buildChart evenCusps tenLongs zeroSpeeds :=
  buildChart_deterministic evenCusps tenLongs zeroSpeeds evenCusps tenLongs zeroSpeeds
    rfl rfl rfl

/-- C4 counterexample: with twelve identical cusps and a body at 10
degrees, no interval matches; the house field receives the sentinel string
"error!" and the chart build still succeeds, instead of failing with an
error that aborts the build. -/
theorem no_match_sentinel_cex :
    for_every_planet zeroCusps 10 = "error!" ∧
    ∃ ch, buildChart zeroCusps tenLongs zeroSpeeds = Except.ok ch ∧
      ch.planets_list.map (fun b => b.house) = List.replicate 12 "error!" := by
  have herr : for_every_planet zeroCusps 10 = "error!" := by
    norm_num [for_every_planet, zeroCusps, point_between, fmod, rtrunc, List.getD]
  obtain ⟨ch, hch, hmap⟩ := buildChart_ok zeroCusps tenLongs zeroSpeeds
    (by intro i hi; interval_cases i <;> norm_num [zeroCusps])
    (by intro i hi; interval_cases i <;> norm_num [tenLongs])
  refine ⟨herr, ch, hch, ?_⟩
  rw [hmap]
  simp [tenLongs, List.getD, herr, List.replicate]

/-- C4 amended: when none of the twelve consecutive-cusp intervals
contains the body's longitude, `for_every_planet` does not raise: it
returns the sentinel string "error!" as the house value (the source
assigns `planet["house"] = "error!"`), and the chart build continues and
succeeds. -/
theorem no_match_sentinel_amended :
    (∀ (cusps : List ℚ) (p : ℚ),
      (∀ i, i < 12 → interval_match cusps p i = false) →
      for_every_planet cusps p = "error!") ∧
    for_every_planet zeroCusps 10 = "error!" := by
  constructor
  · intro cusps p h
    have g0 := h 0 (by norm_num)
    have g1 := h 1 (by norm_num)
    have g2 := h 2 (by norm_num)
    have g3 := h 3 (by norm_num)
    have g4 := h 4 (by norm_num)
    have g5 := h 5 (by norm_num)
    have g6 := h 6 (by norm_num)
    have g7 := h 7 (by norm_num)
    have g8 := h 8 (by norm_num)
    have g9 := h 9 (by norm_num)
    have g10 := h 10 (by norm_num)
    have g11 := h 11 (by norm_num)
    simp only [interval_match] at g0 g1 g2 g3 g4 g5 g6 g7 g8 g9 g10 g11
    norm_num at g0 g1 g2 g3 g4 g5 g6 g7 g8 g9 g10 g11
    simp [for_every_planet, g0, g1, g2, g3, g4, g5, g6, g7, g8, g9, g10, g11]
  · norm_num [for_every_planet, zeroCusps, point_between, fmod, rtrunc, List.getD]

end Kerykeion


